import Mathlib

/-!
Verification of `.github/scripts/run-container-test.py`: a dispatcher that
runs precompiled Kotlin/Native test binaries inside an emulated container.

The embedding models the Python script faithfully:
* `os.environ` and `shutil.which` are injected as functions `String → Option String`;
* the external container process is injected as `exec : String → Nat`
  giving the exit status of the composed command string;
* printed output is collected in order as a `List String`;
* Python string/path primitives (`str.capitalize`, `shlex.quote`,
  `shlex.join`, `os.path.abspath`, `posixpath.normpath`, `posixpath.join`)
  are reimplemented over `List Char` following CPython's definitions.
-/

namespace ContainerTest

/-- The single-quote character, used by the `shlex.quote` embedding. -/
def squote : Char := Char.ofNat 39

/-- Python `s.startswith(pre)`. -/
def pyStartsWith (s pre : String) : Bool := pre.data.isPrefixOf s.data

/-- Python `s.endswith('/')` (the only suffix test the script's path code needs). -/
def endsWithSlash (s : String) : Bool := s.data.getLast? == some '/'

/-- Python `str.capitalize`: first character uppercased, the rest lowercased. -/
def capitalize (s : String) : String :=
  match s.data with
  | [] => ""
  | c :: cs => String.mk (c.toUpper :: cs.map Char.toLower)

/-- Python `s.split(sep)` for a one-character separator: splits at every
occurrence, keeping empty components (so `"".split(sep) == ['']`). -/
def pySplit (sep : Char) : List Char → List (List Char)
  | [] => [[]]
  | c :: cs =>
    let rest := pySplit sep cs
    if c = sep then [] :: rest
    else
      match rest with
      | r :: rs => (c :: r) :: rs
      | [] => [[c]]

/-- `'/'.join(comps)` over character-list components. -/
def joinComps : List (List Char) → List Char
  | [] => []
  | [c] => c
  | c :: rest => c ++ '/' :: joinComps rest

/-- The `initial_slashes` computation of CPython `posixpath.normpath`:
POSIX keeps one or two leading slashes, but three or more collapse to one. -/
def initialSlashes (path : String) : Nat :=
  if pyStartsWith path "//" && ! pyStartsWith path "///" then 2
  else if pyStartsWith path "/" then 1
  else 0

/-- The component `".."` as a character list. -/
def dotdot : List Char := ['.', '.']

/-- One iteration of the component loop of CPython `posixpath.normpath`:
skip empty and `"."` components, keep ordinary components, and let `".."`
pop the previous component unless the path is relative and empty so far or
the previous component is itself an unresolved `".."`. -/
def normStep (k : Nat) (acc : List (List Char)) (comp : List Char) : List (List Char) :=
  if comp = [] ∨ comp = ['.'] then acc
  else if comp ≠ dotdot ∨ (k = 0 ∧ acc = []) ∨ (acc ≠ [] ∧ acc.getLast? = some dotdot) then
    acc ++ [comp]
  else if acc ≠ [] then acc.dropLast
  else acc

/-- CPython `posixpath.normpath`. -/
def normpath (path : String) : String :=
  if path = "" then "."
  else
    let k := initialSlashes path
    let newComps := (pySplit '/' path.data).foldl (normStep k) []
    let res := List.replicate k '/' ++ joinComps newComps
    if res = [] then "." else String.mk res

/-- CPython `posixpath.join` for two arguments. -/
def pyJoin (a b : String) : String :=
  if pyStartsWith b "/" then b
  else if a = "" ∨ endsWithSlash a then a ++ b
  else a ++ "/" ++ b

/-- CPython `posixpath.abspath`, with the current working directory injected:
a relative path is joined onto `cwd`, then the result is normalized. -/
def abspath (cwd path : String) : String :=
  if pyStartsWith path "/" then normpath path
  else normpath (pyJoin cwd path)

/-- Characters that `shlex.quote` leaves unquoted: the ASCII word characters
together with at-sign, percent, plus, equals, colon, comma, dot, slash, dash. -/
def shlexSafeChar (c : Char) : Bool :=
  c.isAlpha || c.isDigit || c = '_' || c = '@' || c = '%' || c = '+' || c = '=' ||
  c = ':' || c = ',' || c = '.' || c = '/' || c = '-'

/-- The replacement step of `shlex.quote`: each single quote becomes
the five-character sequence quote, double-quote, quote, double-quote, quote. -/
def quoteEsc : List Char → List Char
  | [] => []
  | c :: cs =>
    if c = squote then squote :: '"' :: squote :: '"' :: squote :: quoteEsc cs
    else c :: quoteEsc cs

/-- CPython `shlex.quote`. -/
def shlexQuote (s : String) : String :=
  if s = "" then String.mk [squote, squote]
  else if s.data.all shlexSafeChar then s
  else String.mk (squote :: quoteEsc s.data ++ [squote])

/-- CPython `shlex.join`. -/
def shlexJoin (args : List String) : String :=
  String.intercalate " " (args.map shlexQuote)

/-- The script's `DISTRO_TO_IMAGE_NAME` dict, as a partial lookup. -/
def DISTRO_TO_IMAGE_NAME (d : String) : Option String :=
  if d = "ubuntu-22.04" then some "public.ecr.aws/lts/ubuntu:22.04_stable"
  else if d = "al2023" then some "public.ecr.aws/amazonlinux/amazonlinux:2023"
  else if d = "al2" then some "public.ecr.aws/amazonlinux/amazonlinux:2"
  else none

/-- The script's `DOCKER_PLATFORM_BY_ARCH` dict, as a partial lookup. -/
def DOCKER_PLATFORM_BY_ARCH (a : String) : Option String :=
  if a = "x64" then some "linux/amd64"
  else if a = "arm64" then some "linux/arm64"
  else none

/-- The probe order of `oci_executable`. -/
def executors : List String := ["finch", "podman", "docker"]

/-- `oci_executable()`: return `os.environ['OCI_EXE']` verbatim when set,
otherwise the first candidate of `executors` that `shutil.which` resolves;
when none resolves, print a diagnostic and `exit(1)` (modelled as an
`Except` error carrying the diagnostic and the exit status). -/
def oci_executable (env which : String → Option String) :
    Except (String × Nat) String :=
  match env "OCI_EXE" with
  | some oci_exe => .ok oci_exe
  | none =>
    match executors.find? (fun exe => (which exe).isSome) with
    | some exe => .ok exe
    | none => .error ("cannot find container executor", 1)

/-- The parsed command-line options consumed by `run_docker_test`. -/
structure Opts where
  verbose : Bool
  distro : String
  arch : String
  test_bin_dir : String
  no_system_certs : Bool
deriving DecidableEq, Repr

/-- `vprint`: a message is emitted only when the verbose flag is on. -/
def vprint (verbose : Bool) (message : String) : List String :=
  if verbose then [message] else []

/-- `shell(command)` with the default `check=True`: emits the verbose
diagnostic, runs the command, and returns the printed lines together with
the external exit status. -/
def shell (verbose : Bool) (exec : String → Nat) (command : String) :
    List String × Nat :=
  (vprint verbose ("running `" ++ command ++ "`"), exec command)

/-- The outcome of one run of the script: the lines printed in order, the
command string handed to `shell` (none when no container invocation was
attempted), and the process exit status. -/
structure RunResult where
  printed : List String
  shellCmd : Option String
  exitCode : Nat
deriving DecidableEq, Repr

/-- The `cmd` token list assembled by `run_docker_test` (lines 92-117),
`none` when a dict lookup raises `KeyError`. -/
def buildCmd (cwd : String) (oci_exe : String) (opts : Opts) :
    Option (List String) := do
  let platform ← DOCKER_PLATFORM_BY_ARCH opts.arch
  let test_bin_dir := abspath cwd opts.test_bin_dir
  let image_name ← DISTRO_TO_IMAGE_NAME opts.distro
  let path_to_exe := "./linux" ++ capitalize opts.arch ++ "/debugTest/test.kexe"
  let cmd := [oci_exe, "run", "--rm", "-v" ++ test_bin_dir ++ ":/test"]
  let cmd := if !opts.no_system_certs then cmd ++ ["-v/etc/ssl:/etc/ssl"] else cmd
  return cmd ++ ["-w/test", "-e DEBIAN_FRONTEND=noninteractive", "--platform",
    platform, image_name, path_to_exe]

/-- `run_docker_test(opts)` as run from `main`: the platform lookup happens
first, then executor resolution (a resolution failure prints its diagnostic
and exits 1 before any invocation is built), then the command is assembled,
joined, printed unconditionally, and run through `shell` with `check=True`:
a non-zero external status raises `CalledProcessError`, which is uncaught
and makes the interpreter exit with status 1; a zero status exits 0.
`none` models an uncaught `KeyError` on an unvalidated key. -/
def run_docker_test (cwd : String) (env which : String → Option String)
    (exec : String → Nat) (verbose : Bool) (opts : Opts) : Option RunResult :=
  match DOCKER_PLATFORM_BY_ARCH opts.arch with
  | none => none
  | some _ =>
    match oci_executable env which with
    | .error (diag, code) => some ⟨[diag], none, code⟩
    | .ok oci_exe =>
      match buildCmd cwd oci_exe opts with
      | none => none
      | some cmd =>
        let cmdStr := shlexJoin cmd
        let (shellPrinted, status) := shell verbose exec cmdStr
        some ⟨cmdStr :: shellPrinted, some cmdStr, if status = 0 then 0 else 1⟩



/-! ### Concrete fixtures used by the witnesses -/

/-- A process environment with no `OCI_EXE` override set. -/
def envEmpty : String → Option String := fun _ => none

/-- A process environment overriding the executor to a custom name. -/
def envOverride : String → Option String :=
  fun v => if v = "OCI_EXE" then some "my-custom-engine" else none

/-- A search path on which only `docker` resolves. -/
def whichDockerOnly : String → Option String :=
  fun e => if e = "docker" then some "/usr/bin/docker" else none

/-- A search path on which only `podman` resolves. -/
def whichPodmanOnly : String → Option String :=
  fun e => if e = "podman" then some "/usr/bin/podman" else none

/-- A concrete run request: al2023 on x64, certificates mounted, not verbose. -/
def opts0 : Opts := ⟨false, "al2023", "x64", "/tmp/out", false⟩

/-- The token sequence the script assembles for `opts0` with docker. -/
def cmd0 : List String :=
  ["docker", "run", "--rm", "-v/tmp/out:/test", "-v/etc/ssl:/etc/ssl", "-w/test",
   "-e DEBIAN_FRONTEND=noninteractive", "--platform", "linux/amd64",
   "public.ecr.aws/amazonlinux/amazonlinux:2023", "./linuxX64/debugTest/test.kexe"]

/-- The run result for `opts0` under verbose output and a passing binary. -/
def runVerboseOk : RunResult :=
  ⟨[shlexJoin cmd0, "running `" ++ shlexJoin cmd0 ++ "`"], some (shlexJoin cmd0), 0⟩

/-- The run result for `opts0`, quiet, when the container process exits 1. -/
def runQuietFail : RunResult := ⟨[shlexJoin cmd0], some (shlexJoin cmd0), 1⟩

/-! ### Helper lemmas -/

theorem pyStartsWith_slash_iff (s : String) :
    pyStartsWith s "/" = true ↔ ∃ t, s.data = '/' :: t := by
  unfold pyStartsWith
  show List.isPrefixOf ['/'] s.data = true ↔ _
  cases hd : s.data with
  | nil => simp [List.isPrefixOf]
  | cons c cs =>
    simp [List.isPrefixOf]
    exact eq_comm

theorem mk_replicate_abs (k : Nat) (l : List Char) (hk : 1 ≤ k) :
    pyStartsWith
      (if List.replicate k '/' ++ l = [] then "."
       else String.mk (List.replicate k '/' ++ l)) "/" = true := by
  obtain ⟨m, rfl⟩ : ∃ m, k = m + 1 := ⟨k - 1, by omega⟩
  rw [List.replicate_succ, List.cons_append]
  rw [if_neg (fun hx => List.noConfusion hx)]
  rw [pyStartsWith_slash_iff]
  exact ⟨List.replicate m '/' ++ l, rfl⟩

theorem normpath_abs (p : String) (h : pyStartsWith p "/" = true) :
    pyStartsWith (normpath p) "/" = true := by
  have hne : p ≠ "" := by
    obtain ⟨t, ht⟩ := (pyStartsWith_slash_iff p).1 h
    intro he
    rw [he] at ht
    exact List.noConfusion ht
  have hk : 1 ≤ initialSlashes p := by
    unfold initialSlashes
    rw [h]
    split <;> simp
  have hmain := mk_replicate_abs (initialSlashes p)
    (joinComps ((pySplit '/' p.data).foldl (normStep (initialSlashes p)) [])) hk
  unfold normpath
  rw [if_neg hne]
  exact hmain

theorem pyJoin_abs (a b : String) (ha : pyStartsWith a "/" = true) :
    pyStartsWith (pyJoin a b) "/" = true := by
  obtain ⟨t, ht⟩ := (pyStartsWith_slash_iff a).1 ha
  unfold pyJoin
  split
  · assumption
  · split
    · rw [pyStartsWith_slash_iff]
      exact ⟨t ++ b.data, by rw [String.data_append, ht]; rfl⟩
    · rw [pyStartsWith_slash_iff]
      refine ⟨t ++ "/".data ++ b.data, ?_⟩
      rw [String.data_append, String.data_append, ht]
      simp

theorem abspath_abs (cwd p : String) (hcwd : pyStartsWith cwd "/" = true) :
    pyStartsWith (abspath cwd p) "/" = true := by
  unfold abspath
  split
  · exact normpath_abs p (by assumption)
  · exact normpath_abs _ (pyJoin_abs cwd p hcwd)

theorem platform_inv {a p : String} (h : DOCKER_PLATFORM_BY_ARCH a = some p) :
    (a = "x64" ∧ p = "linux/amd64") ∨ (a = "arm64" ∧ p = "linux/arm64") := by
  unfold DOCKER_PLATFORM_BY_ARCH at h
  split at h
  · simp_all
  · split at h <;> simp_all

theorem image_inv {d img : String} (h : DISTRO_TO_IMAGE_NAME d = some img) :
    img = "public.ecr.aws/lts/ubuntu:22.04_stable" ∨
    img = "public.ecr.aws/amazonlinux/amazonlinux:2023" ∨
    img = "public.ecr.aws/amazonlinux/amazonlinux:2" := by
  unfold DISTRO_TO_IMAGE_NAME at h
  split at h
  · simp_all
  · split at h
    · simp_all
    · split at h <;> simp_all

theorem mount_ne_cert (s : String) :
    "-v" ++ s ++ ":/test" ≠ "-v/etc/ssl:/etc/ssl" := by
  intro h
  have h2 := congrArg (fun t : String => t.data.reverse.head?) h
  simp only [String.data_append, List.reverse_append] at h2
  have e1 : (":/test" : String).data.reverse = ['t', 's', 'e', 't', '/', ':'] := rfl
  have e2 : ("-v/etc/ssl:/etc/ssl" : String).data.reverse.head? = some 'l' := rfl
  rw [e1, e2] at h2
  simp at h2

theorem buildCmd_eq (cwd oci_exe : String) (opts : Opts) {platform image : String}
    (hp : DOCKER_PLATFORM_BY_ARCH opts.arch = some platform)
    (hi : DISTRO_TO_IMAGE_NAME opts.distro = some image) :
    buildCmd cwd oci_exe opts = some
      ([oci_exe, "run", "--rm", "-v" ++ abspath cwd opts.test_bin_dir ++ ":/test"] ++
       (if opts.no_system_certs then [] else ["-v/etc/ssl:/etc/ssl"]) ++
       ["-w/test", "-e DEBIAN_FRONTEND=noninteractive", "--platform", platform, image,
        "./linux" ++ capitalize opts.arch ++ "/debugTest/test.kexe"]) := by
  unfold buildCmd
  rw [hp, hi]
  cases hce : opts.no_system_certs <;> simp

/-- Inversion of a run that reached the external process: the executor was
resolved, the command was assembled, and the result records the joined
command string, its echo, the verbose diagnostic, and the propagated exit. -/
theorem run_docker_test_inv (cwd : String) (env which : String → Option String)
    (exec : String → Nat) (verbose : Bool) (opts : Opts) (r : RunResult)
    (c : String)
    (h : run_docker_test cwd env which exec verbose opts = some r)
    (hc : r.shellCmd = some c) :
    ∃ oci_exe cmd, oci_executable env which = .ok oci_exe ∧
      buildCmd cwd oci_exe opts = some cmd ∧ c = shlexJoin cmd ∧
      r = ⟨c :: vprint verbose ("running `" ++ c ++ "`"), some c,
           if exec c = 0 then 0 else 1⟩ := by
  unfold run_docker_test at h
  split at h
  · exact absurd h (by simp)
  · split at h
    · rename_i diag code heq
      injection h with h
      rw [← h] at hc
      exact absurd hc (by simp)
    · rename_i oci_exe heq
      split at h
      · exact absurd h (by simp)
      · rename_i cmd hb
        simp only [shell] at h
        injection h with h
        rw [← h] at hc
        simp only at hc
        have hcc : c = shlexJoin cmd := (Option.some.inj hc).symm
        refine ⟨oci_exe, cmd, heq, hb, hcc, ?_⟩
        rw [← h, hcc]

/-! ### Claims -/

/-- Claim C1: for every run request (with valid distro and arch keys), the
assembled token sequence contains the trust-store mount token
`-v/etc/ssl:/etc/ssl` iff `mountSystemCerts` is true (that is, iff the
`no_system_certs` flag is false); when certificates are excluded the
sequence contains no trust-store mount token, and every other token is
identical in both cases (same prefix `pre` and suffix `post`). -/
theorem C1_trust_store_mount_iff (cwd oci_exe : String) (opts : Opts)
    (platform image : String)
    (hp : DOCKER_PLATFORM_BY_ARCH opts.arch = some platform)
    (hi : DISTRO_TO_IMAGE_NAME opts.distro = some image)
    (hexe : oci_exe ≠ "-v/etc/ssl:/etc/ssl") :
    ∃ pre post : List String,
      buildCmd cwd oci_exe { opts with no_system_certs := false } =
        some (pre ++ ["-v/etc/ssl:/etc/ssl"] ++ post) ∧
      buildCmd cwd oci_exe { opts with no_system_certs := true } =
        some (pre ++ post) ∧
      "-v/etc/ssl:/etc/ssl" ∉ pre ++ post := by
  refine ⟨[oci_exe, "run", "--rm",
      "-v" ++ abspath cwd opts.test_bin_dir ++ ":/test"],
    ["-w/test", "-e DEBIAN_FRONTEND=noninteractive", "--platform", platform, image,
      "./linux" ++ capitalize opts.arch ++ "/debugTest/test.kexe"], ?_, ?_, ?_⟩
  · have hb := buildCmd_eq cwd oci_exe { opts with no_system_certs := false } hp hi
    simpa using hb
  · have hb := buildCmd_eq cwd oci_exe { opts with no_system_certs := true } hp hi
    simpa using hb
  · intro hmem
    simp only [List.mem_append, List.mem_cons, List.mem_singleton,
      List.not_mem_nil] at hmem
    rcases hmem with (h1 | h2 | h3 | h4 | hF1) | h5 | h6 | h7 | h8 | h9 | h10 | hF2
    · exact hexe h1.symm
    · exact absurd h2 (by decide)
    · exact absurd h3 (by decide)
    · exact mount_ne_cert _ h4.symm
    · exact hF1
    · exact absurd h5 (by decide)
    · exact absurd h6 (by decide)
    · exact absurd h7 (by decide)
    · rcases platform_inv hp with ⟨_, hpl⟩ | ⟨_, hpl⟩ <;> rw [hpl] at h8 <;>
        exact absurd h8 (by decide)
    · rcases image_inv hi with him | him | him <;> rw [him] at h9 <;>
        exact absurd h9 (by decide)
    · rcases platform_inv hp with ⟨ha, _⟩ | ⟨ha, _⟩ <;> rw [ha] at h10 <;>
        exact absurd h10 (by decide)
    · exact hF2

/-- Witness for C1 at a concrete request. -/
theorem C1_trust_store_mount_iff_witness :
    ∃ pre post : List String,
      buildCmd "/work" "docker" { opts0 with no_system_certs := false } =
        some (pre ++ ["-v/etc/ssl:/etc/ssl"] ++ post) ∧
      buildCmd "/work" "docker" { opts0 with no_system_certs := true } =
        some (pre ++ post) ∧
      "-v/etc/ssl:/etc/ssl" ∉ pre ++ post :=
  C1_trust_store_mount_iff "/work" "docker" opts0 "linux/amd64"
    "public.ecr.aws/amazonlinux/amazonlinux:2023" (by decide) (by decide) (by decide)

/-- Claim C2: when the override variable is unset and no candidate of the
priority list resolves on the search path, resolution fails fatally: the
diagnostic names the missing container executor, the process exits with the
non-zero status 1, and no container invocation is built or attempted (the
result carries no shell command). -/
theorem C2_no_executor_fatal (cwd : String) (env which : String → Option String)
    (exec : String → Nat) (verbose : Bool) (opts : Opts) (platform : String)
    (henv : env "OCI_EXE" = none)
    (hwhich : ∀ exe ∈ executors, which exe = none)
    (hp : DOCKER_PLATFORM_BY_ARCH opts.arch = some platform) :
    oci_executable env which = .error ("cannot find container executor", 1) ∧
    run_docker_test cwd env which exec verbose opts =
      some ⟨["cannot find container executor"], none, 1⟩ := by
  have h1 : which "finch" = none := hwhich "finch" (by simp [executors])
  have h2 : which "podman" = none := hwhich "podman" (by simp [executors])
  have h3 : which "docker" = none := hwhich "docker" (by simp [executors])
  have hoci : oci_executable env which =
      .error ("cannot find container executor", 1) := by
    unfold oci_executable executors
    rw [henv]
    simp [List.find?, h1, h2, h3]
  refine ⟨hoci, ?_⟩
  unfold run_docker_test
  rw [hp, hoci]

/-- Witness for C2 with an empty environment and an empty search path. -/
theorem C2_no_executor_fatal_witness :
    oci_executable envEmpty (fun _ => none) =
      .error ("cannot find container executor", 1) ∧
    run_docker_test "/work" envEmpty (fun _ => none) (fun _ => 0) false opts0 =
      some ⟨["cannot find container executor"], none, 1⟩ :=
  C2_no_executor_fatal "/work" envEmpty (fun _ => none) (fun _ => 0) false opts0
    "linux/amd64" rfl (fun _ _ => rfl) (by decide)

/-- Claim C3: when the `OCI_EXE` override is set to any string X, executor
resolution returns X verbatim, for every search-path oracle `which` (no
existence check, regardless of which candidates are installed). -/
theorem C3_override_verbatim (env which : String → Option String) (X : String)
    (henv : env "OCI_EXE" = some X) :
    oci_executable env which = .ok X := by
  unfold oci_executable
  rw [henv]

/-- Witness for C3 with an override naming an uninstalled engine. -/
theorem C3_override_verbatim_witness :
    oci_executable envOverride (fun _ => none) = .ok "my-custom-engine" :=
  C3_override_verbatim envOverride (fun _ => none) "my-custom-engine" (by decide)

/-- Claim C4: the in-container executable path token is exactly
`./linux<Arch>/debugTest/test.kexe` with the architecture identifier
capitalized; for arch x64 the template yields
`./linuxX64/debugTest/test.kexe`, for arm64 `./linuxArm64/debugTest/test.kexe`,
and this token is the final token of the assembled sequence. -/
theorem C4_exe_path_template_last (cwd oci_exe : String) (opts : Opts)
    (platform image : String) (tokens : List String)
    (hp : DOCKER_PLATFORM_BY_ARCH opts.arch = some platform)
    (hi : DISTRO_TO_IMAGE_NAME opts.distro = some image)
    (h : buildCmd cwd oci_exe opts = some tokens) :
    tokens.getLast? =
      some ("./linux" ++ capitalize opts.arch ++ "/debugTest/test.kexe") ∧
    "./linux" ++ capitalize "x64" ++ "/debugTest/test.kexe" =
      "./linuxX64/debugTest/test.kexe" ∧
    "./linux" ++ capitalize "arm64" ++ "/debugTest/test.kexe" =
      "./linuxArm64/debugTest/test.kexe" := by
  refine ⟨?_, by decide, by decide⟩
  rw [buildCmd_eq cwd oci_exe opts hp hi] at h
  injection h with h
  rw [← h]
  cases hnc : opts.no_system_certs <;> simp [hnc]

/-- Witness for C4 at a concrete request. -/
theorem C4_exe_path_template_last_witness :
    cmd0.getLast? =
      some ("./linux" ++ capitalize opts0.arch ++ "/debugTest/test.kexe") ∧
    "./linux" ++ capitalize "x64" ++ "/debugTest/test.kexe" =
      "./linuxX64/debugTest/test.kexe" ∧
    "./linux" ++ capitalize "arm64" ++ "/debugTest/test.kexe" =
      "./linuxArm64/debugTest/test.kexe" :=
  C4_exe_path_template_last "/work" "docker" opts0 "linux/amd64"
    "public.ecr.aws/amazonlinux/amazonlinux:2023" cmd0
    (by decide) (by decide) (by decide)

set_option maxRecDepth 10000 in
/-- Claim C5 fails on the code: at a concrete request with the verbose flag
false, the run still prints the fully composed command string (the script's
`print(cmd)` on line 120 is unconditional), so "with verbose false the
command string is not echoed" is false. -/
theorem C5_counterexample :
    opts0.verbose = false ∧
    run_docker_test "/work" envEmpty whichDockerOnly (fun _ => 0)
      opts0.verbose opts0 =
      some ⟨[shlexJoin cmd0], some (shlexJoin cmd0), 0⟩ ∧
    shlexJoin cmd0 ∈ [shlexJoin cmd0] := by decide

/-- Claim C5 as amended: the fully composed command string is echoed before
the external process runs on every run that reaches it, regardless of the
verbose flag; the verbose flag controls only the additional
`running` diagnostic, which is present exactly when verbose is true, so
with verbose false the command string is the only line echoed. -/
theorem C5_command_always_echoed (cwd : String)
    (env which : String → Option String) (exec : String → Nat)
    (verbose : Bool) (opts : Opts) (r : RunResult) (c : String)
    (h : run_docker_test cwd env which exec verbose opts = some r)
    (hc : r.shellCmd = some c) :
    c ∈ r.printed ∧
    r.printed = c :: vprint verbose ("running `" ++ c ++ "`") ∧
    (verbose = false → r.printed = [c]) := by
  obtain ⟨oci_exe, cmd, _, _, _, hr⟩ :=
    run_docker_test_inv cwd env which exec verbose opts r c h hc
  subst hr
  refine ⟨by simp, rfl, ?_⟩
  intro hv
  rw [hv]
  rfl

set_option maxRecDepth 10000 in
/-- Witness for the amended C5 at a concrete verbose run. -/
theorem C5_command_always_echoed_witness :
    shlexJoin cmd0 ∈ runVerboseOk.printed ∧
    runVerboseOk.printed =
      shlexJoin cmd0 :: vprint true ("running `" ++ shlexJoin cmd0 ++ "`") ∧
    (true = false → runVerboseOk.printed = [shlexJoin cmd0]) :=
  C5_command_always_echoed "/work" envEmpty whichDockerOnly (fun _ => 0)
    true opts0 runVerboseOk (shlexJoin cmd0) (by decide) (by decide)

/-- Claim C6: for every run that reaches the external container process, the
run's outcome equals the process's outcome: the run exits 0 iff the external
process exited 0, and a container exit status 1 yields run exit status 1
(the uncaught `CalledProcessError` from `check=True`); the exit status is
never swallowed or reinterpreted as success. -/
theorem C6_exit_status_propagation (cwd : String)
    (env which : String → Option String) (exec : String → Nat)
    (verbose : Bool) (opts : Opts) (r : RunResult) (c : String)
    (h : run_docker_test cwd env which exec verbose opts = some r)
    (hc : r.shellCmd = some c) :
    (r.exitCode = 0 ↔ exec c = 0) ∧
    (exec c ≠ 0 → r.exitCode ≠ 0) ∧
    (exec c = 1 → r.exitCode = 1) := by
  obtain ⟨oci_exe, cmd, _, _, _, hr⟩ :=
    run_docker_test_inv cwd env which exec verbose opts r c h hc
  subst hr
  refine ⟨?_, ?_, ?_⟩
  · by_cases hx : exec c = 0 <;> simp [hx]
  · intro hx
    simp [hx]
  · intro hx
    simp [hx]

set_option maxRecDepth 10000 in
/-- Witness for C6 at a concrete run whose container process exits 1. -/
theorem C6_exit_status_propagation_witness :
    (runQuietFail.exitCode = 0 ↔ (fun _ : String => 1) (shlexJoin cmd0) = 0) ∧
    ((fun _ : String => 1) (shlexJoin cmd0) ≠ 0 → runQuietFail.exitCode ≠ 0) ∧
    ((fun _ : String => 1) (shlexJoin cmd0) = 1 → runQuietFail.exitCode = 1) :=
  C6_exit_status_propagation "/work" envEmpty whichDockerOnly (fun _ => 1)
    false opts0 runQuietFail (shlexJoin cmd0) (by decide) (by decide)

/-- Claim C7: without an override, resolution probes the fixed candidate
list in the order finch, podman, docker, and returns the first candidate
resolvable on the search path; a later candidate is returned only when
every earlier one is unresolvable. -/
theorem C7_probe_priority_order (env which : String → Option String)
    (henv : env "OCI_EXE" = none) :
    executors = ["finch", "podman", "docker"] ∧
    ((which "finch").isSome = true → oci_executable env which = .ok "finch") ∧
    (which "finch" = none → (which "podman").isSome = true →
      oci_executable env which = .ok "podman") ∧
    (which "finch" = none → which "podman" = none →
      (which "docker").isSome = true →
      oci_executable env which = .ok "docker") := by
  unfold oci_executable executors
  rw [henv]
  refine ⟨rfl, ?_, ?_, ?_⟩
  · intro h1
    simp [List.find?, h1]
  · intro h1 h2
    simp [List.find?, h1, h2]
  · intro h1 h2 h3
    simp [List.find?, h1, h2, h3]

/-- Witness for C7: podman is returned when finch is absent and podman is
installed. -/
theorem C7_probe_priority_order_witness :
    oci_executable envEmpty whichPodmanOnly = .ok "podman" :=
  (C7_probe_priority_order envEmpty whichPodmanOnly rfl).2.2.1
    (by decide) (by decide)

/-- Claim C8: two run requests differing only in the architecture map to
the identical image reference (the image depends only on the distro), and
their assembled token sequences share the whole prefix `pre` (executor,
subcommand, flags, mounts, workdir, env, platform flag), differing only in
the platform-string token and the final in-container path token. -/
theorem C8_arch_change_frame (cwd oci_exe : String) (opts : Opts)
    (a2 : String) (p1 p2 image : String)
    (hp1 : DOCKER_PLATFORM_BY_ARCH opts.arch = some p1)
    (hp2 : DOCKER_PLATFORM_BY_ARCH a2 = some p2)
    (hi : DISTRO_TO_IMAGE_NAME opts.distro = some image) :
    DISTRO_TO_IMAGE_NAME ({ opts with arch := a2 }).distro =
      DISTRO_TO_IMAGE_NAME opts.distro ∧
    ∃ pre : List String,
      buildCmd cwd oci_exe opts = some (pre ++ [p1, image,
        "./linux" ++ capitalize opts.arch ++ "/debugTest/test.kexe"]) ∧
      buildCmd cwd oci_exe { opts with arch := a2 } = some (pre ++ [p2, image,
        "./linux" ++ capitalize a2 ++ "/debugTest/test.kexe"]) := by
  refine ⟨rfl, [oci_exe, "run", "--rm",
      "-v" ++ abspath cwd opts.test_bin_dir ++ ":/test"] ++
      (if opts.no_system_certs then [] else ["-v/etc/ssl:/etc/ssl"]) ++
      ["-w/test", "-e DEBIAN_FRONTEND=noninteractive", "--platform"], ?_, ?_⟩
  · have hb := buildCmd_eq cwd oci_exe opts hp1 hi
    rw [hb]
    simp
  · have hb := buildCmd_eq cwd oci_exe { opts with arch := a2 } hp2 hi
    rw [hb]
    simp

/-- Witness for C8: the al2023 request on x64 versus the same on arm64. -/
theorem C8_arch_change_frame_witness :
    DISTRO_TO_IMAGE_NAME ({ opts0 with arch := "arm64" }).distro =
      DISTRO_TO_IMAGE_NAME opts0.distro ∧
    ∃ pre : List String,
      buildCmd "/work" "docker" opts0 = some (pre ++ ["linux/amd64",
        "public.ecr.aws/amazonlinux/amazonlinux:2023",
        "./linux" ++ capitalize opts0.arch ++ "/debugTest/test.kexe"]) ∧
      buildCmd "/work" "docker" { opts0 with arch := "arm64" } =
        some (pre ++ ["linux/arm64",
          "public.ecr.aws/amazonlinux/amazonlinux:2023",
          "./linux" ++ capitalize "arm64" ++ "/debugTest/test.kexe"]) :=
  C8_arch_change_frame "/work" "docker" opts0 "arm64" "linux/amd64"
    "linux/arm64" "public.ecr.aws/amazonlinux/amazonlinux:2023"
    (by decide) (by decide) (by decide)

/-- Claim C9: for every supported (distro, arch) pair, the mapping tables
yield a non-empty image reference and a non-empty platform string, and the
lookups are deterministic: identical inputs give identical outputs. -/
theorem C9_mapper_nonempty_deterministic (d a img p : String)
    (hd : DISTRO_TO_IMAGE_NAME d = some img)
    (ha : DOCKER_PLATFORM_BY_ARCH a = some p) :
    img ≠ "" ∧ p ≠ "" ∧
      ∀ d2 a2, d2 = d → a2 = a →
        DISTRO_TO_IMAGE_NAME d2 = DISTRO_TO_IMAGE_NAME d ∧
        DOCKER_PLATFORM_BY_ARCH a2 = DOCKER_PLATFORM_BY_ARCH a := by
  refine ⟨?_, ?_, ?_⟩
  · rcases image_inv hd with h | h | h <;> (rw [h]; decide)
  · rcases platform_inv ha with ⟨_, h⟩ | ⟨_, h⟩ <;> (rw [h]; decide)
  · intro d2 a2 hd2 ha2
    subst hd2
    subst ha2
    exact ⟨rfl, rfl⟩

/-- Witness for C9 at the (al2023, x64) pair. -/
theorem C9_mapper_nonempty_deterministic_witness :
    ("public.ecr.aws/amazonlinux/amazonlinux:2023" : String) ≠ "" ∧
    ("linux/amd64" : String) ≠ "" ∧
      ∀ d2 a2, d2 = "al2023" → a2 = "x64" →
        DISTRO_TO_IMAGE_NAME d2 = DISTRO_TO_IMAGE_NAME "al2023" ∧
        DOCKER_PLATFORM_BY_ARCH a2 = DOCKER_PLATFORM_BY_ARCH "x64" :=
  C9_mapper_nonempty_deterministic "al2023" "x64"
    "public.ecr.aws/amazonlinux/amazonlinux:2023" "linux/amd64"
    (by decide) (by decide)

/-- Claim C10: the builder converts `test_bin_dir` to an absolute path with
`os.path.abspath` before embedding it in the mandatory mount token at
index 3 of the sequence; resolution of a relative path happens against the
process's current working directory, so with an absolute `cwd` the host
side of the `-v<dir>:/test` token always starts with a slash. -/
theorem C10_testdir_absolute_mount (cwd oci_exe : String) (opts : Opts)
    (platform image : String) (tokens : List String)
    (hcwd : pyStartsWith cwd "/" = true)
    (hp : DOCKER_PLATFORM_BY_ARCH opts.arch = some platform)
    (hi : DISTRO_TO_IMAGE_NAME opts.distro = some image)
    (h : buildCmd cwd oci_exe opts = some tokens) :
    tokens[3]? = some ("-v" ++ abspath cwd opts.test_bin_dir ++ ":/test") ∧
    pyStartsWith (abspath cwd opts.test_bin_dir) "/" = true := by
  refine ⟨?_, abspath_abs cwd opts.test_bin_dir hcwd⟩
  rw [buildCmd_eq cwd oci_exe opts hp hi] at h
  injection h with h
  rw [← h]
  simp

/-- Witness for C10 at a concrete request with a relative test directory. -/
theorem C10_testdir_absolute_mount_witness :
    (["docker", "run", "--rm", "-v/work/out:/test", "-v/etc/ssl:/etc/ssl",
      "-w/test", "-e DEBIAN_FRONTEND=noninteractive", "--platform",
      "linux/amd64", "public.ecr.aws/amazonlinux/amazonlinux:2023",
      "./linuxX64/debugTest/test.kexe"] : List String)[3]? =
      some ("-v" ++ abspath "/work" ({ opts0 with test_bin_dir := "out" }).test_bin_dir ++ ":/test") ∧
    pyStartsWith (abspath "/work" ({ opts0 with test_bin_dir := "out" }).test_bin_dir) "/" = true :=
  C10_testdir_absolute_mount "/work" "docker"
    { opts0 with test_bin_dir := "out" } "linux/amd64"
    "public.ecr.aws/amazonlinux/amazonlinux:2023"
    ["docker", "run", "--rm", "-v/work/out:/test", "-v/etc/ssl:/etc/ssl",
      "-w/test", "-e DEBIAN_FRONTEND=noninteractive", "--platform",
      "linux/amd64", "public.ecr.aws/amazonlinux/amazonlinux:2023",
      "./linuxX64/debugTest/test.kexe"]
    (by decide) (by decide) (by decide) (by decide)

end ContainerTest
